import Mathlib

/-!
Shallow embedding of the rs-kvdb key-value store (src/handlers.rs) in Lean 4.

Modelling decisions:
* `std::time::Instant` is modelled as a `Nat` count of nanoseconds since an
  arbitrary origin; `t.elapsed()` at current time `now` is `now - t`, and
  `Duration::from_secs s` is `s * 1000000000` nanoseconds.
* `serde_json::Value` is modelled by the inductive `Json`; numbers are
  carried as mathematical integers, but everywhere the source works with
  `i64` the model is bounded accordingly: `as_i64` answers `none` outside
  the i64 range, `parse_i64` fails outside it, and the increment update
  `it += increment` is two's-complement wrapping 64-bit addition
  (`wrap64`), the release-build semantics of i64 overflow.
* The `HashMap<String, MapValue>` behind the mutex is modelled as the
  function `String → Option MapValue` for the point lookup/insert/remove
  handlers; `list_keys`, which iterates, is modelled over the snapshot of
  the map's (unspecified) iteration order as a `List (String × MapValue)`.
* A Rust `panic!` (e.g. `.unwrap()` on `Err`/`None`) is modelled by a
  handler returning `none`: no HTTP response is produced and no further
  store mutation happens.
* `serde_json::from_slice::<PostData>` is an external library call; it is
  modelled as an abstract decoding function passed as a parameter
  (`none` = deserialization error, which the handlers turn into a 400).
-/

/-- Nanoseconds in one second; `Duration::from_secs` scale factor. -/
def NANOS : Nat := 1000000000

/-- Model of `Duration::from_secs ttl`, in nanoseconds. -/
def durationFromSecs (s : Nat) : Nat := s * NANOS

/-- Modelled from the spec: `TTL_DEFAULT` is declared in the crate root
(`lib.rs`), which is not among the provided source files; the spec fixes the
process-wide default TTL at 30 seconds. -/
def TTL_DEFAULT : Nat := 30

/-- Constant `MAX_SIZE` from handlers.rs: max payload size is 256k. -/
def MAX_SIZE : Nat := 262144

/-- Model of `serde_json::Value`. Numbers are modelled as mathematical
integers (see the header comment). -/
inductive Json where
  | null
  | bool (b : Bool)
  | num (n : Int)
  | str (s : String)
  | arr (elems : List Json)
  | obj (fields : List (String × Json))

/-- Model of `serde_json::Value::as_i64`: the stored number when the value
is a number representable as an `i64` (within [-2^63, 2^63)), `none`
otherwise. -/
def Json.as_i64 : Json → Option Int
  | .num n =>
    if -9223372036854775808 ≤ n ∧ n ≤ 9223372036854775807 then some n
    else none
  | _ => none

/-- Structure `MapValue` from handlers.rs: a stored value with its ttl (seconds) and
creation timestamp (`Instant`, modelled in nanoseconds). -/
structure MapValue where
  value : Json
  ttl : Nat
  timestamp : Nat

/-- The `HashMap<String, MapValue>` inside `Map`, as a point-lookup map. -/
abbrev Store := String → Option MapValue

/-- Model of `HashMap::insert`: inserts or replaces the entry for `k`. -/
def Store.insert (st : Store) (k : String) (v : MapValue) : Store :=
  fun k' => if k' = k then some v else st k'

/-- Model of `HashMap::remove`: removes the entry for `k` when present. -/
def Store.remove (st : Store) (k : String) : Store :=
  fun k' => if k' = k then none else st k'

/-- The empty map (`Map::new`). -/
def emptyStore : Store := fun _ => none

/-- Response bodies: plain text or a serialized JSON value. -/
inductive Body where
  | text (s : String)
  | json (j : Json)

/-- The HTTP responses the handlers build. -/
inductive Resp where
  | ok (b : Body)
  | created (b : Body)
  | badRequest (b : Body)
  | notFound (b : Body)

/-- Rust `str::starts_with`, on the character sequences of the strings. -/
def startsWithChars (s p : String) : Bool :=
  p.data.isPrefixOf s.data

/-- All-decimal-digit parse of a nonempty character list (the digit part of
`str::parse::<i64>`). -/
def parseDigits (cs : List Char) : Option Nat :=
  if cs = [] then none
  else if cs.all (fun c => c.isDigit) then
    some (cs.foldl (fun acc c => acc * 10 + (c.toNat - 48)) 0)
  else none

/-- Rust `str::parse::<i64>` on a character list: an optional sign followed
by at least one decimal digit, failing (`none`, like the parse error the
source unwraps) when the value does not fit in an `i64`. -/
def parse_i64 (cs : List Char) : Option Int :=
  (match cs with
   | [] => none
   | c :: rest =>
     if c = '+' then (parseDigits rest).map (fun n => (n : Int))
     else if c = '-' then (parseDigits rest).map (fun n => -(n : Int))
     else (parseDigits cs).map (fun n => (n : Int))).bind
    (fun v =>
      if -9223372036854775808 ≤ v ∧ v ≤ 9223372036854775807 then some v
      else none)

/-- Handler `get_val` (GET /\x7bkey\x7d): returns the value if present and not
expired, 404 otherwise. -/
def get_val (key : String) (now : Nat) (st : Store) : Resp :=
  match st key with
  | some val =>
    if now - val.timestamp < durationFromSecs val.ttl then
      .ok (.json val.value)
    else
      .notFound (.text "Value found but expired")
  | none => .notFound (.text "No value found")

/-- Handler `delete_key` (DELETE /\x7bkey\x7d): removes the entry if physically
present, reporting whether a removal occurred. -/
def delete_key (key : String) (st : Store) : Resp × Store :=
  match st key with
  | some _ => (.ok (.text "Key removed"), st.remove key)
  | none => (.notFound (.text "Key not found"), st)

/-- Two's-complement wrap-around of signed 64-bit arithmetic: the unique
value congruent mod 2^64 that lies in [-2^63, 2^63). This is what an
overflowing `i64` addition or multiplication produces in a release build
(overflow checks off). -/
def wrap64 (v : Int) : Int :=
  (v + 9223372036854775808) % 18446744073709551616 - 9223372036854775808

/-- Handler `patch_key` (PATCH /\x7bkey\x7d): the increment/decrement handler.
`data` is the raw request body; `none` models the panic of
`data[1..].parse::<i64>().unwrap()` when the remainder of a signed body is
not a valid integer. -/
def patch_key (data key : String) (now : Nat) (st : Store) :
    Option (Resp × Store) :=
  if startsWithChars data "+" || startsWithChars data "-" then
    match parse_i64 (data.data.drop 1) with
    | none => none
    | some n =>
      let increment : Int := wrap64 ((if startsWithChars data "+" then 1 else -1) * n)
      match st key with
      | some v =>
        match v.value.as_i64 with
        | some it0 =>
          let it := wrap64 (it0 + increment)
          some (.ok (.text (toString it)),
                st.insert key ⟨.num it, v.ttl, v.timestamp⟩)
        | none => some (.badRequest (.text "Value is not a number"), st)
      | none =>
        some (.ok (.text (toString (1 : Int))),
              st.insert key ⟨.num 1, TTL_DEFAULT, now⟩)
  else
    some (.badRequest (.text "Patch requests should be of the form \"+N\""), st)

/-- Structure `SetTx` from handlers.rs: one set operation of a transaction payload. -/
structure SetTx where
  set : String
  value : Json
  ttl : Option Nat

/-- Structure `DeleteTx` from handlers.rs: one delete operation of a transaction
payload. -/
structure DeleteTx where
  delete : String

/-- Enum `Transaction` from handlers.rs. -/
inductive Transaction where
  | setTx (t : SetTx)
  | deleteTx (t : DeleteTx)

/-- Structure `TransactionSet` from handlers.rs: the ordered list of operations. -/
structure TransactionSet where
  txn : List Transaction

/-- Enum `PostData` from handlers.rs: a POST body is either a transaction set or
any other JSON value. -/
inductive PostData where
  | transactionSet (t : TransactionSet)
  | other (v : Json)

/-- The accumulation loop of `read_body`: rejects as soon as the
accumulated body plus the next chunk would exceed `MAX_SIZE` bytes.
Chunks are modelled as lists of bytes. -/
def read_body_loop : List (List Nat) → List Nat → Except String (List Nat)
  | [], body => .ok body
  | chunk :: rest, body =>
    if body.length + chunk.length > MAX_SIZE then .error "overflow"
    else read_body_loop rest (body ++ chunk)

/-- Function `read_body` from handlers.rs: drains the payload, enforcing the 256 KiB
cap; the error carries `ErrorBadRequest("overflow")`. -/
def read_body (payload : List (List Nat)) : Except String (List Nat) :=
  read_body_loop payload []

/-- Handler `insert_key` (POST /\x7bkey\x7d). Parameter `decode` models the external
`serde_json::from_slice::<PostData>` call (`none` = deserialization error,
turned into a 400 by `map_err`). The `none` result models the panic of
`read_body(payload).await.unwrap()` when the body exceeds `MAX_SIZE`. -/
def insert_key (decode : List Nat → Option PostData)
    (payload : List (List Nat)) (key : String) (query_ttl : Option Nat)
    (now : Nat) (st : Store) : Option (Resp × Store) :=
  match read_body payload with
  | .error _ => none
  | .ok body =>
    match decode body with
    | none => some (.badRequest (.text "deserialization error"), st)
    | some post_data =>
      let ttl := query_ttl.getD TTL_DEFAULT
      match post_data with
      | .transactionSet _ =>
        some (.badRequest
          (.text "Transactions should be used without a key in the path"), st)
      | .other json =>
        some (.created (.text "Inserted"), st.insert key ⟨json, ttl, now⟩)

/-- Function `apply_action` from handlers.rs: one batch operation. A `SetTx` inserts
or replaces the entry (with the per-operation ttl when given, else the
batch-level `ttl`); a `DeleteTx` removes the key. -/
def apply_action (action : Transaction) (now : Nat) (ttl : Nat)
    (st : Store) : Store :=
  match action with
  | .setTx s => st.insert s.set ⟨s.value, s.ttl.getD ttl, now⟩
  | .deleteTx d => st.remove d.delete

/-- The `for item in tx_set.txn` loop of `insert_key_txn`: applies the
operations sequentially, in the given order. -/
def apply_txn_list (txns : List Transaction) (ttl : Nat) (now : Nat)
    (st : Store) : Store :=
  txns.foldl (fun acc t => apply_action t now ttl acc) st

/-- Handler `insert_key_txn` (POST /): the batch endpoint. `decode` and the `none`
result are as in `insert_key`. -/
def insert_key_txn (decode : List Nat → Option PostData)
    (payload : List (List Nat)) (query_ttl : Option Nat) (now : Nat)
    (st : Store) : Option (Resp × Store) :=
  match read_body payload with
  | .error _ => none
  | .ok body =>
    match decode body with
    | none => some (.badRequest (.text "deserialization error"), st)
    | some post_data =>
      let ttl := query_ttl.getD TTL_DEFAULT
      match post_data with
      | .transactionSet tx_set =>
        some (.created (.text "Applied"), apply_txn_list tx_set.txn ttl now st)
      | .other _ =>
        some (.badRequest (.text
          "Invalid payload. Either the transaction is malformed or no key was specified"),
          st)

mutual

/-- Model of the serialization that `serde_json` and the `Display` impl of
`serde_json::Value` perform (an external library; string escaping is out of
scope of every claim and omitted). -/
def Json.render : Json → String
  | .null => "null"
  | .bool b => if b then "true" else "false"
  | .num n => toString n
  | .str s => "\"" ++ s ++ "\""
  | .arr elems => "[" ++ Json.renderSepList elems ++ "]"
  | .obj fields => "\x7b" ++ Json.renderSepFields fields ++ "\x7d"

/-- Comma-separated rendering of a JSON array's elements. -/
def Json.renderSepList : List Json → String
  | [] => ""
  | [e] => Json.render e
  | e :: es => Json.render e ++ "," ++ Json.renderSepList es

/-- Comma-separated rendering of a JSON object's fields. -/
def Json.renderSepFields : List (String × Json) → String
  | [] => ""
  | [(k, v)] => "\"" ++ k ++ "\":" ++ Json.render v
  | (k, v) :: fs =>
    "\"" ++ k ++ "\":" ++ Json.render v ++ "," ++ Json.renderSepFields fs

end

/-- Model of `serde_json::map::Map` insertion (a BTreeMap ordered by key,
later insertions of the same key winning), on a sorted association list. -/
def objInsert : List (String × Json) → String → Json → List (String × Json)
  | [], k, v => [(k, v)]
  | (k', v') :: rest, k, v =>
    if k = k' then (k, v) :: rest
    else if k < k' then (k, v) :: (k', v') :: rest
    else (k', v') :: objInsert rest k v

/-- Enum `FormatEnum` from handlers.rs. -/
inductive FormatEnum where
  | text
  | json

/-- Structure `ListOpts` from handlers.rs (the query string of GET /). The
source field holding the key-filtering option is called `pref` here, after
the local binding the handler reads it into. -/
structure ListOpts where
  format : Option String
  limit : Option Nat
  skip : Option Nat
  pref : Option String
  reverse : Option Bool
  values : Option Bool

/-- Function `format_map` from handlers.rs: shapes the selected (key, value) pairs
into the response body, by format and the `values` flag. -/
def format_map (format : FormatEnum) (values : Bool)
    (st_map : List (String × MapValue)) : String :=
  match format with
  | .json =>
    if values then
      (Json.obj (st_map.foldl (fun m kv => objInsert m kv.1 kv.2.value) [])).render
    else
      (Json.arr (st_map.map (fun kv => .str kv.1))).render
  | .text =>
    let key_val_list : List String :=
      if values then st_map.map (fun kv => kv.1 ++ "=" ++ kv.2.value.render)
      else st_map.map (fun kv => kv.1)
    String.intercalate "\n" key_val_list

/-- The format match at the top of `list_keys`: "text" selects the text
format, anything else (including no format) selects JSON. -/
def formatChoice (query : ListOpts) : FormatEnum :=
  match query.format with
  | some val =>
    match val with
    | "text" => FormatEnum.text
    | "json" => FormatEnum.json
    | _ => FormatEnum.json
  | none => FormatEnum.json

/-- Handler `list_keys` (GET /): iterates the map snapshot `key_lists` (the
HashMap's unspecified iteration order), keeps the keys starting with the
requested prefix, keeps the unexpired entries, skips `skip`, takes `limit`
(defaulting to the whole map's size), and formats the result. -/
def list_keys (query : ListOpts) (now : Nat)
    (key_lists : List (String × MapValue)) : Resp :=
  let format := formatChoice query
  let limit := query.limit.getD key_lists.length
  let skip := query.skip.getD 0
  let pref := match query.pref with
    | some p => p
    | none => ""
  let _reverse := query.reverse.getD false
  let values := query.values.getD false
  Resp.ok (.text (format_map format values
    ((((key_lists.filter (fun kv => startsWithChars kv.1 pref)).filter
        (fun kv => now - kv.2.timestamp < durationFromSecs kv.2.ttl)).drop
      skip).take limit)))

/-- Written from the spec's words (claim C8), to be compared with the
selection `list_keys` makes: the entries whose key starts with the given
prefix (all keys when no prefix is given) and which are not expired at the
moment of listing, then drop the first `skip` of them, then take at most
`limit` of them (all of them when no limit is given). -/
def listSelectionSpec (query : ListOpts) (now : Nat)
    (entries : List (String × MapValue)) : List (String × MapValue) :=
  let candidates := entries.filter (fun kv =>
    (match query.pref with
     | some p => startsWithChars kv.1 p
     | none => true)
    && decide (now - kv.2.timestamp < durationFromSecs kv.2.ttl))
  let afterSkip := candidates.drop (query.skip.getD 0)
  match query.limit with
  | some l => afterSkip.take l
  | none => afterSkip

/-- The spec's example store contents for listing (§8), used as concrete
witness data. -/
def entsUserAdmin : List (String × MapValue) :=
  [("user:1", ⟨.num 1, 30, 0⟩), ("user:2", ⟨.num 2, 30, 0⟩),
   ("admin:1", ⟨.num 3, 30, 0⟩)]

/-- A store holding one entry at key "k" that is already expired (ttl 0):
physically present, logically expired at every instant. -/
def expiredStore : Store :=
  fun k => if k = "k" then some ⟨.num 7, 0, 0⟩ else none

/-- A store holding a non-numeric value (a string) at key "k". -/
def strStore : Store :=
  fun k => if k = "k" then some ⟨.str "x", 30, 5⟩ else none

theorem startsWithChars_empty (s : String) : startsWithChars s "" = true := by
  simp [startsWithChars]

/-- C9: `delete_key` removes the entry and reports "Key removed" exactly
when the key is physically present in the map — the TTL is never consulted,
so an expired-but-physically-present key is also removed and reported
"removed" — and reports "Key not found" leaving the store unchanged when
the key is physically absent. -/
theorem c9_delete_physical_presence (key : String) (st : Store) :
    (∀ mv : MapValue, st key = some mv →
      delete_key key st = (.ok (.text "Key removed"), st.remove key))
    ∧ (st key = none →
      delete_key key st = (.notFound (.text "Key not found"), st)) := by
  constructor
  · intro mv h
    simp [delete_key, h]
  · intro h
    simp [delete_key, h]

/-- Witness for C9: deleting the expired-but-physically-present entry of
`expiredStore` reports "Key removed"; deleting from the empty store reports
"Key not found" and leaves it unchanged. -/
theorem c9_delete_physical_presence_witness :
    delete_key "k" expiredStore
      = (.ok (.text "Key removed"), expiredStore.remove "k")
    ∧ delete_key "k" emptyStore
      = (.notFound (.text "Key not found"), emptyStore) :=
  ⟨(c9_delete_physical_presence "k" expiredStore).1 ⟨.num 7, 0, 0⟩ rfl,
   (c9_delete_physical_presence "k" emptyStore).2 rfl⟩

/-- C3: incrementing an absent key creates it with stored value exactly 1
and the default TTL and responds "1", whatever the sign or magnitude of the
(successfully parsed) requested delta. -/
theorem c3_increment_absent_first_touch (data key : String) (now : Nat)
    (st : Store) (n : Int)
    (habs : st key = none)
    (hsign : startsWithChars data "+" = true ∨ startsWithChars data "-" = true)
    (hparse : parse_i64 (data.data.drop 1) = some n) :
    patch_key data key now st
      = some (.ok (.text "1"), st.insert key ⟨.num 1, TTL_DEFAULT, now⟩) := by
  unfold patch_key
  simp only [List.drop_one] at hparse
  rcases hsign with h | h <;> simp [h, hparse, habs] <;> rfl

/-- Witness for C3: a "+5" increment of the absent key "k" of the empty
store creates it with value 1 and ttl `TTL_DEFAULT`, and a "-5" increment
does exactly the same. -/
theorem c3_increment_absent_first_touch_witness :
    patch_key "+5" "k" 7 emptyStore
      = some (.ok (.text "1"), emptyStore.insert "k" ⟨.num 1, TTL_DEFAULT, 7⟩)
    ∧ patch_key "-5" "k" 7 emptyStore
      = some (.ok (.text "1"), emptyStore.insert "k" ⟨.num 1, TTL_DEFAULT, 7⟩) :=
  ⟨c3_increment_absent_first_touch "+5" "k" 7 emptyStore 5 rfl (Or.inl rfl) rfl,
   c3_increment_absent_first_touch "-5" "k" 7 emptyStore 5 rfl (Or.inr rfl) rfl⟩

/-- C6: incrementing a key whose stored value is not representable as an
integer responds 400 "Value is not a number" and returns the store exactly
as it was (the entry and every other entry included). -/
theorem c6_increment_type_error (data key : String) (now : Nat) (st : Store)
    (mv : MapValue) (n : Int)
    (hpres : st key = some mv)
    (hnotint : mv.value.as_i64 = none)
    (hsign : startsWithChars data "+" = true ∨ startsWithChars data "-" = true)
    (hparse : parse_i64 (data.data.drop 1) = some n) :
    patch_key data key now st
      = some (.badRequest (.text "Value is not a number"), st) := by
  unfold patch_key
  simp only [List.drop_one] at hparse
  rcases hsign with h | h <;> simp [h, hparse, hpres, hnotint]

/-- Witness for C6: incrementing the string-valued entry of `strStore`
fails with "Value is not a number" and leaves the store untouched. -/
theorem c6_increment_type_error_witness :
    patch_key "+3" "k" 9 strStore
      = some (.badRequest (.text "Value is not a number"), strStore) :=
  c6_increment_type_error "+3" "k" 9 strStore ⟨.str "x", 30, 5⟩ 3
    rfl rfl (Or.inl rfl) rfl

/-- Helper: `wrap64` is the identity on values already in the i64 range. -/
theorem wrap64_eq_self (v : Int)
    (h1 : -9223372036854775808 ≤ v) (h2 : v ≤ 9223372036854775807) :
    wrap64 v = v := by
  unfold wrap64
  omega

/-- C7 (amended): incrementing a physically present integer-valued entry —
expired or not, expiration is never consulted — replaces the value with
exactly `old + delta` and responds with it, provided the requested delta
and the sum `old + delta` both lie in the i64 range (outside it the i64
machine addition wraps instead); the entry's ttl and timestamp are kept
and every other key of the store is unchanged. -/
theorem c7_increment_integer_frame (data key : String) (now : Nat)
    (st : Store) (mv : MapValue) (old n delta : Int)
    (hpres : st key = some mv)
    (hint : mv.value.as_i64 = some old)
    (hsign : startsWithChars data "+" = true ∨ startsWithChars data "-" = true)
    (hparse : parse_i64 (data.data.drop 1) = some n)
    (hdelta : (if startsWithChars data "+" then (1 : Int) else -1) * n = delta)
    (hd1 : -9223372036854775808 ≤ delta) (hd2 : delta ≤ 9223372036854775807)
    (hs1 : -9223372036854775808 ≤ old + delta)
    (hs2 : old + delta ≤ 9223372036854775807) :
    patch_key data key now st
      = some (.ok (.text (toString (old + delta))),
          st.insert key ⟨.num (old + delta), mv.ttl, mv.timestamp⟩)
    ∧ ∀ k' : String, k' ≠ key →
        (st.insert key ⟨.num (old + delta), mv.ttl, mv.timestamp⟩) k' = st k' := by
  constructor
  · unfold patch_key
    simp only [List.drop_one] at hparse
    have hw1 : wrap64 ((if startsWithChars data "+" then (1 : Int) else -1) * n)
        = delta := by
      rw [hdelta]
      exact wrap64_eq_self delta hd1 hd2
    have hw2 : wrap64 (old + delta) = old + delta := wrap64_eq_self _ hs1 hs2
    rcases hsign with h | h <;>
      simp [h] at hw1 <;>
      simp [h, hparse, hpres, hint, hw1, hw2]
  · intro k' hk'
    simp [Store.insert, hk']

/-- Witness for C7: incrementing the expired-but-present entry of
`expiredStore` (value 7, ttl 0) by "+3" yields 10, keeps ttl 0 and the old
timestamp, and leaves the other key "other" unchanged. -/
theorem c7_increment_integer_frame_witness :
    patch_key "+3" "k" 99 expiredStore
      = some (.ok (.text (toString ((7 : Int) + 3))),
          expiredStore.insert "k" ⟨.num ((7 : Int) + 3), 0, 0⟩)
    ∧ (expiredStore.insert "k" ⟨.num ((7 : Int) + 3), 0, 0⟩) "other"
        = expiredStore "other" :=
  ⟨(c7_increment_integer_frame "+3" "k" 99 expiredStore ⟨.num 7, 0, 0⟩ 7 3 3
      rfl rfl (Or.inl rfl) rfl rfl (by decide) (by decide) (by decide)
      (by decide)).1,
   (c7_increment_integer_frame "+3" "k" 99 expiredStore ⟨.num 7, 0, 0⟩ 7 3 3
      rfl rfl (Or.inl rfl) rfl rfl (by decide) (by decide) (by decide)
      (by decide)).2 "other" (by decide)⟩

/-- A store holding the maximal i64 value at key "k". -/
def i64MaxStore : Store :=
  fun k => if k = "k" then some ⟨.num 9223372036854775807, 30, 0⟩ else none

/-- Counterexample to C7 as stated: with stored value old = i64::MAX and
requested delta +1, the i64 addition wraps, so the handler stores and
returns -2^63, which is not old + 1. -/
theorem c7_overflow_counterexample :
    patch_key "+1" "k" 0 i64MaxStore
      = some (.ok (.text "-9223372036854775808"),
          i64MaxStore.insert "k" ⟨.num (-9223372036854775808), 30, 0⟩)
    ∧ "-9223372036854775808" ≠ toString ((9223372036854775807 : Int) + 1)
    ∧ (-9223372036854775808 : Int) ≠ 9223372036854775807 + 1 :=
  ⟨rfl, by decide, by decide⟩

/-- C2: a set through `insert_key` (a payload within the size cap decoding
to a plain value `v`) inserts the entry and responds 201 "Inserted"; a
`get_val` of the key returns exactly `v` while less than the effective ttl
has elapsed since the set, reports absence (404 "Value found but expired")
once the ttl or more has elapsed, and the entry nevertheless remains
physically present in the map. -/
theorem c2_set_get_roundtrip (decode : List Nat → Option PostData)
    (payload : List (List Nat)) (body : List Nat) (key : String)
    (query_ttl : Option Nat) (v : Json) (t0 t1 : Nat) (st : Store)
    (hbody : read_body payload = .ok body)
    (hdec : decode body = some (.other v)) :
    insert_key decode payload key query_ttl t0 st
      = some (.created (.text "Inserted"),
          st.insert key ⟨v, query_ttl.getD TTL_DEFAULT, t0⟩)
    ∧ (t1 - t0 < durationFromSecs (query_ttl.getD TTL_DEFAULT) →
        get_val key t1 (st.insert key ⟨v, query_ttl.getD TTL_DEFAULT, t0⟩)
          = .ok (.json v))
    ∧ (durationFromSecs (query_ttl.getD TTL_DEFAULT) ≤ t1 - t0 →
        get_val key t1 (st.insert key ⟨v, query_ttl.getD TTL_DEFAULT, t0⟩)
          = .notFound (.text "Value found but expired"))
    ∧ (st.insert key ⟨v, query_ttl.getD TTL_DEFAULT, t0⟩) key
        = some ⟨v, query_ttl.getD TTL_DEFAULT, t0⟩ := by
  refine ⟨?_, ?_, ?_, ?_⟩
  · simp [insert_key, hbody, hdec]
  · intro hlt
    simp [get_val, Store.insert, hlt]
  · intro hge
    simp [get_val, Store.insert, Nat.not_lt.mpr hge]
  · simp [Store.insert]

/-- Witness for C2: setting "k" to 5 at time 0 with no explicit ttl, a get
at time 3 ns returns 5; a get at exactly 30 elapsed seconds reports the
value expired; the entry is still physically in the map. -/
theorem c2_set_get_roundtrip_witness :
    insert_key (fun _ => some (.other (.num 5))) [] "k" none 0 emptyStore
      = some (.created (.text "Inserted"),
          emptyStore.insert "k" ⟨.num 5, (none : Option Nat).getD TTL_DEFAULT, 0⟩)
    ∧ get_val "k" 3
        (emptyStore.insert "k" ⟨.num 5, (none : Option Nat).getD TTL_DEFAULT, 0⟩)
        = .ok (.json (.num 5))
    ∧ get_val "k" (durationFromSecs 30)
        (emptyStore.insert "k" ⟨.num 5, (none : Option Nat).getD TTL_DEFAULT, 0⟩)
        = .notFound (.text "Value found but expired")
    ∧ (emptyStore.insert "k" ⟨.num 5, (none : Option Nat).getD TTL_DEFAULT, 0⟩) "k"
        = some ⟨.num 5, (none : Option Nat).getD TTL_DEFAULT, 0⟩ :=
  ⟨(c2_set_get_roundtrip (fun _ => some (.other (.num 5))) [] [] "k" none
      (.num 5) 0 3 emptyStore rfl rfl).1,
   (c2_set_get_roundtrip (fun _ => some (.other (.num 5))) [] [] "k" none
      (.num 5) 0 3 emptyStore rfl rfl).2.1 (by decide),
   (c2_set_get_roundtrip (fun _ => some (.other (.num 5))) [] [] "k" none
      (.num 5) 0 (durationFromSecs 30) emptyStore rfl rfl).2.2.1 (by decide),
   (c2_set_get_roundtrip (fun _ => some (.other (.num 5))) [] [] "k" none
      (.num 5) 0 3 emptyStore rfl rfl).2.2.2⟩

/-- C1: the batch loop applies its operations sequentially in the given
order — a Set inserts or replaces the entry for its key, a Delete removes
the key and is a no-op when the key is absent — so a later operation on the
same key overwrites an earlier one's effect; in particular the batch
[Set(a,1), Delete(a), Set(a,2)], applied with the default batch ttl to any
store, leaves a store where a get of `a` returns 2. -/
theorem c1_apply_batch_order (a : String) (st : Store) (now : Nat) :
    get_val a now
        (apply_txn_list
          [.setTx ⟨a, .num 1, none⟩, .deleteTx ⟨a⟩, .setTx ⟨a, .num 2, none⟩]
          TTL_DEFAULT now st)
      = .ok (.json (.num 2))
    ∧ (∀ (t : Transaction) (ts : List Transaction) (ttl : Nat),
        apply_txn_list (t :: ts) ttl now st
          = apply_txn_list ts ttl now (apply_action t now ttl st))
    ∧ (∀ (k : String) (v : Json) (ot : Option Nat) (ttl : Nat),
        apply_action (.setTx ⟨k, v, ot⟩) now ttl st
          = st.insert k ⟨v, ot.getD ttl, now⟩)
    ∧ (∀ (k : String) (ttl : Nat), st k = none →
        apply_action (.deleteTx ⟨k⟩) now ttl st = st) := by
  refine ⟨?_, fun t ts ttl => rfl, fun k v ot ttl => rfl, ?_⟩
  · have h : apply_txn_list
          [.setTx ⟨a, .num 1, none⟩, .deleteTx ⟨a⟩, .setTx ⟨a, .num 2, none⟩]
          TTL_DEFAULT now st
        = ((st.insert a ⟨.num 1, TTL_DEFAULT, now⟩).remove a).insert a
            ⟨.num 2, TTL_DEFAULT, now⟩ := rfl
    have h2 : (((st.insert a ⟨.num 1, TTL_DEFAULT, now⟩).remove a).insert a
        ⟨.num 2, TTL_DEFAULT, now⟩) a = some ⟨.num 2, TTL_DEFAULT, now⟩ := by
      simp [Store.insert]
    have h3 : now - now < durationFromSecs TTL_DEFAULT := by
      simp [durationFromSecs, TTL_DEFAULT, NANOS]
    rw [h, get_val, h2]
    show (if now - now < durationFromSecs TTL_DEFAULT
        then Resp.ok (Body.json (Json.num 2))
        else Resp.notFound (Body.text "Value found but expired"))
      = Resp.ok (Body.json (Json.num 2))
    rw [if_pos h3]
  · intro k ttl habs
    funext k'
    by_cases hk : k' = k
    · simp [apply_action, Store.remove, hk, habs]
    · simp [apply_action, Store.remove, hk]

/-- Witness for C1: the batch [Set(a,1), Delete(a), Set(a,2)] on the empty
store leaves get(a) = 2, and deleting the absent key "x" is a no-op. -/
theorem c1_apply_batch_order_witness :
    get_val "a" 0
        (apply_txn_list
          [.setTx ⟨"a", .num 1, none⟩, .deleteTx ⟨"a"⟩, .setTx ⟨"a", .num 2, none⟩]
          TTL_DEFAULT 0 emptyStore)
      = .ok (.json (.num 2))
    ∧ apply_action (.deleteTx ⟨"x"⟩) 0 TTL_DEFAULT emptyStore = emptyStore :=
  ⟨(c1_apply_batch_order "a" emptyStore 0).1,
   (c1_apply_batch_order "a" emptyStore 0).2.2.2 "x" TTL_DEFAULT rfl⟩

/-- C4 (code bug): the claim requires every body not matching the "+N"/"-N"
format to get a 400-class error with the store unmodified. Bodies that do
not start with '+' or '-' are indeed answered 400 with the store untouched,
but a body such as "+abc" (or the bare "+"), which starts with a sign while
its remainder is not a valid integer, makes `patch_key` panic — the code
runs `data[1..].parse::<i64>().unwrap()` — modelled here by `none`: no
400-class response is produced at all. -/
theorem c4_malformed_increment_panics :
    patch_key "+abc" "k" 0 emptyStore = none
    ∧ patch_key "abc" "k" 0 emptyStore
        = some (.badRequest
            (.text "Patch requests should be of the form \"+N\""), emptyStore)
    ∧ patch_key "+" "k" 0 emptyStore = none :=
  ⟨rfl, rfl, rfl⟩

/-- A single payload chunk longer than `MAX_SIZE` makes `read_body` reject
with the "overflow" bad-request error. -/
theorem read_body_single_over (c : List Nat) (h : MAX_SIZE < c.length) :
    read_body [c] = .error "overflow" := by
  have hstep : read_body [c]
      = if List.length ([] : List Nat) + c.length > MAX_SIZE then .error "overflow"
        else read_body_loop [] ([] ++ c) := rfl
  rw [hstep, if_pos]
  simpa using h

/-- Helper: `insert_key` panics (returns `none`) whenever `read_body`
rejects the payload. -/
theorem insert_key_panics_of_read_body_error
    (decode : List Nat → Option PostData) (payload : List (List Nat))
    (key : String) (query_ttl : Option Nat) (now : Nat) (st : Store)
    (e : String) (h : read_body payload = .error e) :
    insert_key decode payload key query_ttl now st = none := by
  unfold insert_key
  rw [h]

/-- Helper: `insert_key_txn` panics (returns `none`) whenever `read_body`
rejects the payload. -/
theorem insert_key_txn_panics_of_read_body_error
    (decode : List Nat → Option PostData) (payload : List (List Nat))
    (query_ttl : Option Nat) (now : Nat) (st : Store)
    (e : String) (h : read_body payload = .error e) :
    insert_key_txn decode payload query_ttl now st = none := by
  unfold insert_key_txn
  rw [h]

/-- C5 (code bug): the claim requires request bodies exceeding 256 KiB to
be rejected with a 400-class error before any store mutation. `read_body`
does produce the `ErrorBadRequest("overflow")` rejection and the store is
never mutated, but both `insert_key` and `insert_key_txn` call `.unwrap()`
on the result of `read_body`, so an oversized body (here a single chunk of
262145 bytes) makes the handler panic (modelled by `none`) instead of
returning the 400. -/
theorem c5_oversized_body_panics :
    read_body [List.replicate 262145 0] = .error "overflow"
    ∧ insert_key (fun _ => some (.other .null)) [List.replicate 262145 0]
        "k" none 0 emptyStore = none
    ∧ insert_key_txn (fun _ => some (.transactionSet ⟨[]⟩))
        [List.replicate 262145 0] none 0 emptyStore = none := by
  have h : read_body [List.replicate 262145 0] = .error "overflow" := by
    apply read_body_single_over
    rw [List.length_replicate]
    norm_num [MAX_SIZE]
  exact ⟨h, insert_key_panics_of_read_body_error _ _ _ _ _ _ _ h,
    insert_key_txn_panics_of_read_body_error _ _ _ _ _ _ h⟩

/-- Helper: the filter/skip/take pipeline `list_keys` runs equals the
spec-side `listSelectionSpec`. -/
theorem list_selection_eq (query : ListOpts) (now : Nat)
    (entries : List (String × MapValue)) :
    (((entries.filter (fun kv => startsWithChars kv.1
          (match query.pref with | some p => p | none => ""))).filter
        (fun kv => decide (now - kv.2.timestamp < durationFromSecs kv.2.ttl))).drop
      (query.skip.getD 0)).take (query.limit.getD entries.length)
      = listSelectionSpec query now entries := by
  unfold listSelectionSpec
  rw [List.filter_filter]
  have hpred : (fun kv : String × MapValue =>
      decide (now - kv.2.timestamp < durationFromSecs kv.2.ttl)
        && startsWithChars kv.1 (match query.pref with | some p => p | none => ""))
      = (fun kv : String × MapValue =>
        (match query.pref with
         | some p => startsWithChars kv.1 p
         | none => true)
        && decide (now - kv.2.timestamp < durationFromSecs kv.2.ttl)) := by
    funext kv
    cases query.pref with
    | none => simp [startsWithChars_empty, Bool.and_comm]
    | some p => simp [Bool.and_comm]
  rw [hpred]
  cases query.limit with
  | some l => rfl
  | none =>
    apply List.take_of_length_le
    have hfle := List.length_filter_le (fun kv : String × MapValue =>
      (match query.pref with
       | some p => startsWithChars kv.1 p
       | none => true)
      && decide (now - kv.2.timestamp < durationFromSecs kv.2.ttl)) entries
    rw [List.length_drop]
    simp only [Option.getD_none]
    omega

/-- C8: the body of a GET / response is exactly the formatting of the
spec-described selection — the entries whose key starts with the given
prefix (all of them when no prefix is given) and which are unexpired at the
moment of listing, then `skip` dropped, then at most `limit` taken (all
when no limit is given) — and every entry of that selection is unexpired,
so no logically-expired entry ever appears in the output. -/
theorem c8_list_selection (query : ListOpts) (now : Nat)
    (entries : List (String × MapValue)) :
    list_keys query now entries
      = .ok (.text (format_map (formatChoice query) (query.values.getD false)
          (listSelectionSpec query now entries)))
    ∧ ∀ kv ∈ listSelectionSpec query now entries,
        now - kv.2.timestamp < durationFromSecs kv.2.ttl := by
  constructor
  · show Resp.ok (.text (format_map (formatChoice query) (query.values.getD false)
        ((((entries.filter (fun kv => startsWithChars kv.1
              (match query.pref with | some p => p | none => ""))).filter
            (fun kv => decide (now - kv.2.timestamp < durationFromSecs kv.2.ttl))).drop
          (query.skip.getD 0)).take (query.limit.getD entries.length))))
      = _
    rw [list_selection_eq]
  · intro kv hkv
    have hmem : kv ∈ entries.filter (fun kv : String × MapValue =>
        (match query.pref with
         | some p => startsWithChars kv.1 p
         | none => true)
        && decide (now - kv.2.timestamp < durationFromSecs kv.2.ttl)) := by
      unfold listSelectionSpec at hkv
      cases hq : query.limit with
      | some l =>
        rw [hq] at hkv
        exact List.drop_subset _ _ (List.take_subset _ _ hkv)
      | none =>
        rw [hq] at hkv
        exact List.drop_subset _ _ hkv
    have hp := (List.mem_filter.mp hmem).2
    simp only [Bool.and_eq_true, decide_eq_true_eq] at hp
    exact hp.2

/-- Witness for C8: on the spec's example store, listing with prefix
"user:" at time 5 returns the formatted selection, and the selection's
first entry ("user:1") is unexpired. -/
theorem c8_list_selection_witness :
    list_keys ⟨none, none, none, some "user:", none, none⟩ 5 entsUserAdmin
      = .ok (.text (format_map
          (formatChoice ⟨none, none, none, some "user:", none, none⟩) false
          (listSelectionSpec ⟨none, none, none, some "user:", none, none⟩ 5
            entsUserAdmin)))
    ∧ (5 : Nat) - (0 : Nat) < durationFromSecs 30 :=
  ⟨(c8_list_selection ⟨none, none, none, some "user:", none, none⟩ 5
      entsUserAdmin).1,
   (c8_list_selection ⟨none, none, none, some "user:", none, none⟩ 5
      entsUserAdmin).2 ("user:1", ⟨.num 1, 30, 0⟩) (List.mem_cons_self _ _)⟩

/-- C10: the GET / response is identical whether the `reverse` query option
is true, false, or omitted — the option is parsed into `_reverse` but never
used, so it affects neither the selected entries, nor their order, nor the
formatting. -/
theorem c10_reverse_ignored (query : ListOpts) (b : Option Bool) (now : Nat)
    (entries : List (String × MapValue)) :
    list_keys ⟨query.format, query.limit, query.skip, query.pref, b, query.values⟩
        now entries
      = list_keys ⟨query.format, query.limit, query.skip, query.pref, none,
          query.values⟩
        now entries := rfl
